import Mathlib

/-!
Verification of the session lifecycle coordinator of
`augment_agent_dashboard`: the session data model (`models.py`), the
state machine (`state_machine.py`), the persistent session store
(`store.py`), the stop-hook continuation logic (`hooks/stop.py`) and the
server-side timeout sweep and queued-message processing (`server.py`),
shallowly embedded in Lean.

Modelling conventions:
* Python `int` is `Int` (unbounded), Python lists are `List`,
  `Optional[T]` is `Option T`, Python string truthiness is the
  nonemptiness test, list truthiness is nonemptiness.
* Python `datetime` values are modelled as rational seconds since the
  epoch (`ℚ`, covering microsecond precision exactly).  `isoformat` /
  `fromisoformat` form an exact codec on such values, so the JSON image
  of a timestamp is modelled by the dedicated constructor `JValue.time`
  carrying the value itself; a `JValue.str` then models a string that is
  not the `isoformat` of any datetime (parsing it raises `ValueError`).
* `AgentSession._state` is stored as one of the eight members of the
  closed state set (the spec invariant); the Python field holds the
  corresponding string value and raises at first property access when it
  is not a member, which the embedding makes eager in `from_dict`.
  Similarly a message `role` is one of the five literal role strings of
  the `SessionMessage` dataclass.
* Exceptions are modelled with `Except PyErr`; the error class records
  which Python exception type the corresponding operation raises.
* External capabilities (spawning an agent process, desktop/browser
  notifications) are recorded as emitted actions, not executed.
-/

/-- The Python exception classes that the embedded code can raise. -/
inductive PyErr where
  | keyError
  | valueError
  | typeError
  | attributeError
  | jsonDecodeError
  deriving DecidableEq, Repr

deriving instance DecidableEq for Except

/-- `SessionState` (state_machine.py): detailed state of an agent session. -/
inductive SessionState where
  | idle
  | active
  | turn_complete
  | review_pending
  | under_review
  | ready_for_loop
  | loop_prompting
  | error
  deriving DecidableEq, Repr

namespace SessionState

/-- The `str` value of each enum member. -/
def value : SessionState → String
  | idle => "idle"
  | active => "active"
  | turn_complete => "turn_complete"
  | review_pending => "review_pending"
  | under_review => "under_review"
  | ready_for_loop => "ready_for_loop"
  | loop_prompting => "loop_prompting"
  | error => "error"

/-- `SessionState(s)`: the member with value `s`, if any (`ValueError` otherwise). -/
def ofValue (s : String) : Option SessionState :=
  if s = "idle" then some idle
  else if s = "active" then some active
  else if s = "turn_complete" then some turn_complete
  else if s = "review_pending" then some review_pending
  else if s = "under_review" then some under_review
  else if s = "ready_for_loop" then some ready_for_loop
  else if s = "loop_prompting" then some loop_prompting
  else if s = "error" then some error
  else none

/-- `SessionState.is_busy`: the agent is busy in this state. -/
def is_busy : SessionState → Bool
  | active => true
  | under_review => true
  | loop_prompting => true
  | _ => false

end SessionState

/-- `SessionStatus` (models.py): simple status, kept for backwards compatibility. -/
inductive SessionStatus where
  | active
  | idle
  | stopped
  deriving DecidableEq, Repr

namespace SessionStatus

/-- The `str` value of each enum member. -/
def value : SessionStatus → String
  | active => "active"
  | idle => "idle"
  | stopped => "stopped"

/-- `SessionStatus(s)`: the member with value `s`, if any (`ValueError` otherwise). -/
def ofValue (s : String) : Option SessionStatus :=
  if s = "active" then some active
  else if s = "idle" then some idle
  else if s = "stopped" then some stopped
  else none

/-- `SessionStatus.from_state` (models.py): project a detailed state to a status. -/
def from_state (state : SessionState) : SessionStatus :=
  if state.is_busy then active
  else if state = SessionState.error then stopped
  else idle

end SessionStatus

/-- The five message roles of the `SessionMessage` dataclass (models.py). -/
inductive Role where
  | user
  | assistant
  | system
  | dashboard
  | queued
  deriving DecidableEq, Repr

namespace Role

/-- The literal string of each role. -/
def value : Role → String
  | user => "user"
  | assistant => "assistant"
  | system => "system"
  | dashboard => "dashboard"
  | queued => "queued"

/-- The role with the given literal string, if any. -/
def ofValue (s : String) : Option Role :=
  if s = "user" then some user
  else if s = "assistant" then some assistant
  else if s = "system" then some system
  else if s = "dashboard" then some dashboard
  else if s = "queued" then some queued
  else none

end Role

/-- `SessionMessage` (models.py): a message in a session conversation.
Timestamps are rational epoch seconds (see the module conventions). -/
structure SessionMessage where
  role : Role
  content : String
  timestamp : ℚ
  message_id : Option String := none
  tool_calls : Option (List String) := none
  deriving DecidableEq, Repr

/-- `AgentSession` (models.py): one tracked agent session.  Field order and
defaults follow the dataclass; `_state` holds the detailed state (stored as
its string value in Python) and `status` the legacy simplified status. -/
structure AgentSession where
  session_id : String
  conversation_id : String
  workspace_root : String
  workspace_name : String
  _state : SessionState := SessionState.idle
  status : SessionStatus := SessionStatus.idle
  started_at : ℚ := 0
  last_activity : ℚ := 0
  current_task : Option String := none
  messages : List SessionMessage := []
  pending_dashboard_messages : List String := []
  files_changed : List String := []
  tools_used : List String := []
  agent_pid : Option Int := none
  loop_enabled : Bool := false
  loop_count : Int := 0
  loop_prompt_name : Option String := none
  loop_started_at : Option ℚ := none
  review_enabled : Bool := false
  review_constraints : Option String := none
  review_iteration : Int := 0
  max_review_iterations : Int := 3
  in_review_cycle : Bool := false
  review_satisfied : Bool := false
  last_reviewed_files : List String := []
  deriving DecidableEq, Repr

/-- The `state` property setter of `AgentSession` (models.py): store the new
state and re-derive the legacy `status` from it via `SessionStatus.from_state`. -/
def setState (s : AgentSession) (v : SessionState) : AgentSession :=
  { s with _state := v, status := SessionStatus.from_state v }

/-- The invariant claimed by the spec for the legacy status field: it equals
the pure projection of the detailed state. -/
def statusInv (s : AgentSession) : Prop :=
  s.status = SessionStatus.from_state s._state

instance (s : AgentSession) : Decidable (statusInv s) := by
  unfold statusInv; infer_instance

/- ------------------------------------------------------------------
State machine (state_machine.py)
------------------------------------------------------------------ -/

/-- `files_changed_and_review_enabled` (state_machine.py):
`bool(session.files_changed) and session.review_enabled`. -/
def files_changed_and_review_enabled (session : AgentSession) : Bool :=
  !session.files_changed.isEmpty && session.review_enabled

/-- `no_review_needed` (state_machine.py):
`not session.files_changed or not session.review_enabled`. -/
def no_review_needed (session : AgentSession) : Bool :=
  session.files_changed.isEmpty || !session.review_enabled

/-- `review_satisfied` (state_machine.py): satisfied when the iteration bound
is reached, or when the satisfied flag is set. -/
def review_satisfied (session : AgentSession) : Bool :=
  if session.review_iteration ≥ session.max_review_iterations then true
  else session.review_satisfied

/-- `review_not_satisfied` (state_machine.py). -/
def review_not_satisfied (session : AgentSession) : Bool :=
  !review_satisfied session

/-- `loop_enabled` (state_machine.py). -/
def loop_enabled (session : AgentSession) : Bool :=
  session.loop_enabled

/-- `loop_disabled` (state_machine.py). -/
def loop_disabled (session : AgentSession) : Bool :=
  !session.loop_enabled

/-- `in_review_cycle` (state_machine.py). -/
def in_review_cycle (session : AgentSession) : Bool :=
  session.in_review_cycle

/-- `not_in_review_cycle` (state_machine.py). -/
def not_in_review_cycle (session : AgentSession) : Bool :=
  !session.in_review_cycle

/-- The closed set of named condition functions used by the default
transition table (`ConditionFn` values in state_machine.py). -/
inductive Cond where
  | files_changed_and_review_enabled
  | no_review_needed
  | review_satisfied
  | review_not_satisfied
  | loop_enabled
  | loop_disabled
  | in_review_cycle
  | not_in_review_cycle
  deriving DecidableEq, Repr

/-- Evaluate a named condition on a session. -/
def evalCond : Cond → AgentSession → Bool
  | .files_changed_and_review_enabled, s => files_changed_and_review_enabled s
  | .no_review_needed, s => no_review_needed s
  | .review_satisfied, s => review_satisfied s
  | .review_not_satisfied, s => review_not_satisfied s
  | .loop_enabled, s => loop_enabled s
  | .loop_disabled, s => loop_disabled s
  | .in_review_cycle, s => in_review_cycle s
  | .not_in_review_cycle, s => not_in_review_cycle s

/-- The named action functions available to transitions (`ActionFn` values):
the source defines none, so this type is empty. -/
inductive ActionKind where
  deriving DecidableEq, Repr

/-- `Transition` (state_machine.py): a state machine transition. -/
structure Transition where
  from_state : SessionState
  event : String
  to_state : SessionState
  condition : Option Cond := none
  action : Option ActionKind := none
  deriving DecidableEq, Repr

/-- `TransitionResult` (state_machine.py): result of a transition attempt. -/
structure TransitionResult where
  success : Bool
  old_state : SessionState
  new_state : SessionState
  transition : Option Transition := none
  deriving DecidableEq, Repr

/-- A transition entry matches: `from_state` equals the session's current
state, the event name matches, and the guard (if present) evaluates true. -/
def matchesTransition (t : Transition) (s : AgentSession) (event : String) : Prop :=
  t.from_state = s._state ∧ t.event = event ∧
    (∀ c, t.condition = some c → evalCond c s = true)

instance (t : Transition) (s : AgentSession) (event : String) :
    Decidable (matchesTransition t s event) := by
  unfold matchesTransition; infer_instance

/-- Execute the optional action of a transition on the session.  No named
action exists, so this is vacuously the identity. -/
def applyTransitionAction (t : Transition) (s : AgentSession) : AgentSession :=
  match t.action with
  | none => s
  | some a => nomatch a

/-- The scan loop of `SessionStateMachine.process_event` (state_machine.py):
walk the table in declaration order; at the first entry whose state, event
and guard match, run its action, set the session state through the `state`
setter, and return a successful result naming the applied transition;
otherwise report failure with the state unchanged.  `old` is the session
state captured on entry. -/
def process_event_aux (old : SessionState) :
    List Transition → AgentSession → String → AgentSession × TransitionResult
  | [], s, _ =>
      (s, { success := false, old_state := old, new_state := old, transition := none })
  | t :: ts, s, event =>
      if matchesTransition t s event then
        (setState (applyTransitionAction t s) t.to_state,
         { success := true, old_state := old, new_state := t.to_state,
           transition := some t })
      else
        process_event_aux old ts s event

/-- `SessionStateMachine.process_event`: process an event against a session,
returning the mutated session and the `TransitionResult`. -/
def process_event (transitions : List Transition) (session : AgentSession)
    (event : String) : AgentSession × TransitionResult :=
  process_event_aux session._state transitions session event

/-- `SessionStateMachine._default_transitions` (state_machine.py), in
declaration order. -/
def _default_transitions : List Transition :=
  [ { from_state := .idle, event := "session_start", to_state := .active },
    { from_state := .active, event := "turn_end", to_state := .turn_complete,
      condition := some .not_in_review_cycle },
    { from_state := .active, event := "turn_end", to_state := .turn_complete,
      condition := some .in_review_cycle },
    { from_state := .turn_complete, event := "evaluate", to_state := .review_pending,
      condition := some .files_changed_and_review_enabled },
    { from_state := .turn_complete, event := "evaluate", to_state := .ready_for_loop,
      condition := some .no_review_needed },
    { from_state := .review_pending, event := "spawn_reviewer", to_state := .under_review },
    { from_state := .under_review, event := "feedback_sent", to_state := .active },
    { from_state := .turn_complete, event := "check_review", to_state := .ready_for_loop,
      condition := some .review_satisfied },
    { from_state := .turn_complete, event := "check_review", to_state := .review_pending,
      condition := some .review_not_satisfied },
    { from_state := .ready_for_loop, event := "evaluate", to_state := .loop_prompting,
      condition := some .loop_enabled },
    { from_state := .ready_for_loop, event := "evaluate", to_state := .idle,
      condition := some .loop_disabled },
    { from_state := .loop_prompting, event := "prompt_sent", to_state := .active },
    { from_state := .active, event := "error", to_state := .error },
    { from_state := .under_review, event := "error", to_state := .error },
    { from_state := .loop_prompting, event := "error", to_state := .error },
    { from_state := .error, event := "reset", to_state := .idle },
    { from_state := .turn_complete, event := "force_idle", to_state := .idle },
    { from_state := .review_pending, event := "force_idle", to_state := .idle },
    { from_state := .ready_for_loop, event := "force_idle", to_state := .idle } ]

/-- The first table entry matching a session and event, in declaration order. -/
def firstMatching (s : AgentSession) (event : String) :
    List Transition → Option Transition
  | [] => none
  | t :: ts =>
      if matchesTransition t s event then some t
      else firstMatching s event ts

/-- `process_event` is determined by the first matching entry: on a match it
applies exactly that entry through the state setter; with no match it leaves
the session untouched and reports failure. -/
theorem process_event_eq_firstMatching (transitions : List Transition)
    (s : AgentSession) (event : String) :
    process_event transitions s event =
      match firstMatching s event transitions with
      | some t =>
          (setState (applyTransitionAction t s) t.to_state,
           { success := true, old_state := s._state, new_state := t.to_state,
             transition := some t })
      | none =>
          (s, { success := false, old_state := s._state, new_state := s._state,
                transition := none }) := by
  unfold process_event
  induction transitions with
  | nil => rfl
  | cons t ts ih =>
      by_cases h : matchesTransition t s event
      · simp [process_event_aux, firstMatching, h]
      · simpa [process_event_aux, firstMatching, h] using ih

/-- `firstMatching` returns some entry iff a matching entry is in the list. -/
theorem firstMatching_isSome_iff (s : AgentSession) (event : String)
    (l : List Transition) :
    (firstMatching s event l).isSome ↔ ∃ t ∈ l, matchesTransition t s event := by
  induction l with
  | nil => simp [firstMatching]
  | cons t ts ih =>
      by_cases h : matchesTransition t s event
      · simp [firstMatching, h]
      · simp [firstMatching, h, ih]

/-- No transition of this embedding carries an action (the source defines no
named action function), so executing the optional action is the identity. -/
theorem applyTransitionAction_eq (t : Transition) (s : AgentSession) :
    applyTransitionAction t s = s := by
  unfold applyTransitionAction
  match h : t.action with
  | none => rfl
  | some a => exact nomatch a

/-- C1: `process_event` returns a successful `TransitionResult` iff some entry
of the transition table, scanned in declaration order, has `from_state` equal
to the session's current state, `event` equal to the given event, and a guard
(if present) that evaluates true on the session; selection takes the first
such entry in declaration order; and when no entry matches, it returns
`success = false` with `new_state = old_state` and the session unchanged. -/
theorem process_event_spec (transitions : List Transition)
    (s : AgentSession) (event : String) :
    ((process_event transitions s event).2.success = true ↔
       ∃ t ∈ transitions, matchesTransition t s event) ∧
    ((¬ ∃ t ∈ transitions, matchesTransition t s event) →
       process_event transitions s event =
         (s, { success := false, old_state := s._state, new_state := s._state,
               transition := none })) ∧
    (∀ t, firstMatching s event transitions = some t →
       process_event transitions s event =
         (setState s t.to_state,
          { success := true, old_state := s._state, new_state := t.to_state,
            transition := some t })) := by
  have hkey := process_event_eq_firstMatching transitions s event
  refine ⟨?_, ?_, ?_⟩
  · rw [hkey]
    rcases hfm : firstMatching s event transitions with _ | t
    · simp only [hfm] at hkey ⊢
      constructor
      · intro h
        exact absurd h (by simp)
      · intro hex
        have := (firstMatching_isSome_iff s event transitions).mpr hex
        rw [hfm] at this
        exact absurd this (by simp)
    · simp only [hfm]
      constructor
      · intro _
        have : (firstMatching s event transitions).isSome := by rw [hfm]; rfl
        exact (firstMatching_isSome_iff s event transitions).mp this
      · intro _
        trivial
  · intro hnone
    have : ¬ (firstMatching s event transitions).isSome := by
      intro h
      exact hnone ((firstMatching_isSome_iff s event transitions).mp h)
    rcases hfm : firstMatching s event transitions with _ | t
    · rw [hkey, hfm]
    · rw [hfm] at this
      exact absurd rfl this
  · intro t hfm
    rw [hkey]
    simp only [hfm, applyTransitionAction_eq]

/-- Witness for `process_event_spec` at a concrete session and event: from
`idle`, the event `session_start` succeeds and an unknown event fails. -/
theorem process_event_spec_witness :
    ((process_event _default_transitions
        { session_id := "s", conversation_id := "c", workspace_root := "w",
          workspace_name := "n" } "session_start").2.success = true) ∧
    ((process_event _default_transitions
        { session_id := "s", conversation_id := "c", workspace_root := "w",
          workspace_name := "n" } "bogus_event").2.success = false) := by
  constructor
  · exact (process_event_spec _default_transitions
      { session_id := "s", conversation_id := "c", workspace_root := "w",
        workspace_name := "n" } "session_start").1.mpr
      ⟨{ from_state := .idle, event := "session_start", to_state := .active },
        by decide, by decide⟩
  · have h := (process_event_spec _default_transitions
      { session_id := "s", conversation_id := "c", workspace_root := "w",
        workspace_name := "n" } "bogus_event").2.1
    rw [h (by decide)]

/-- On a session in the `error` state the default table's only matching entry
is the `reset` recovery transition. -/
theorem firstMatching_error_state (s : AgentSession) (event : String)
    (hs : s._state = SessionState.error) :
    firstMatching s event _default_transitions =
      (if event = "reset"
       then some { from_state := .error, event := "reset", to_state := .idle }
       else none) := by
  by_cases hev : event = "reset"
  · simp [firstMatching, matchesTransition, _default_transitions, hs, hev]
  · simp [firstMatching, matchesTransition, _default_transitions, hs, hev,
      Ne.symm hev]

/-- C10: the `error` state is a trap except for explicit reset — for a session
whose state is `error`, every event other than `"reset"` fails and leaves the
session in `error` unchanged, while `"reset"` succeeds and moves it to `idle`. -/
theorem error_state_is_trap (s : AgentSession) (event : String)
    (hs : s._state = SessionState.error) :
    (event ≠ "reset" →
       process_event _default_transitions s event =
         (s, { success := false, old_state := .error, new_state := .error,
               transition := none })) ∧
    (process_event _default_transitions s "reset" =
       (setState s .idle,
        { success := true, old_state := .error, new_state := .idle,
          transition :=
            some { from_state := .error, event := "reset", to_state := .idle } })) := by
  constructor
  · intro hev
    rw [process_event_eq_firstMatching, firstMatching_error_state s event hs, hs]
    simp [hev]
  · rw [process_event_eq_firstMatching, firstMatching_error_state s "reset" hs, hs]
    simp [applyTransitionAction_eq]

/-- Witness for `error_state_is_trap` at a concrete erred session: the events
`turn_end` and `session_start` fail from `error`, `reset` succeeds to `idle`. -/
theorem error_state_is_trap_witness :
    ((process_event _default_transitions
        { session_id := "s", conversation_id := "c", workspace_root := "w",
          workspace_name := "n", _state := SessionState.error,
          status := SessionStatus.stopped } "turn_end").2.success = false) ∧
    ((process_event _default_transitions
        { session_id := "s", conversation_id := "c", workspace_root := "w",
          workspace_name := "n", _state := SessionState.error,
          status := SessionStatus.stopped } "reset").2.new_state =
      SessionState.idle) := by
  have h := error_state_is_trap
    { session_id := "s", conversation_id := "c", workspace_root := "w",
      workspace_name := "n", _state := SessionState.error,
      status := SessionStatus.stopped } "turn_end" (by decide)
  constructor
  · rw [h.1 (by decide)]
  · rw [h.2]

/- ------------------------------------------------------------------
Stop hook: loop continuation and goal detection (hooks/stop.py)
------------------------------------------------------------------ -/

/-- Whether the first list is a prefix of the second (character lists). -/
def charsIsPrefix : List Char → List Char → Bool
  | [], _ => true
  | _ :: _, [] => false
  | a :: as, b :: bs => a = b && charsIsPrefix as bs

/-- Whether the needle occurs as a contiguous run of the haystack. -/
def charsContains (needle : List Char) : List Char → Bool
  | [] => charsIsPrefix needle []
  | c :: cs => charsIsPrefix needle (c :: cs) || charsContains needle cs

/-- Python `needle in hay` on strings: substring occurrence. -/
def strIn (needle hay : String) : Bool :=
  charsContains needle.data hay.data

/-- Python `str.lower()` (adequate for the ASCII phrases the code compares). -/
def pyLower (s : String) : String :=
  String.mk (s.data.map Char.toLower)

/-- A nonempty string never occurs in the empty string. -/
theorem strIn_ne_empty (needle hay : String) (hne : needle ≠ "")
    (h : strIn needle hay = true) : hay ≠ "" := by
  intro hh
  subst hh
  rcases needle with ⟨l⟩
  cases l with
  | nil => exact hne rfl
  | cons c cs =>
      have hd : ("" : String).data = [] := rfl
      rw [strIn, hd] at h
      simp [charsContains, charsIsPrefix] at h

/-- Lowercasing preserves emptiness. -/
theorem pyLower_eq_empty (s : String) (h : pyLower s = "") : s = "" := by
  rcases s with ⟨l⟩
  cases l with
  | nil => rfl
  | cons c cs =>
      exact absurd h (by simp [pyLower, String.ext_iff])

/-- `DEFAULT_COMPLETION_PHRASES` (hooks/stop.py): phrases that indicate the
agent believes the goal is complete. -/
def DEFAULT_COMPLETION_PHRASES : List String :=
  [ "goal has been achieved",
    "goal is complete",
    "task is complete",
    "task has been completed",
    "all tasks are complete",
    "all done",
    "work is complete",
    "objective has been met",
    "successfully completed",
    "nothing left to do",
    "no further action needed",
    "no further actions needed",
    "finished all",
    "completed all" ]

/-- A loop-prompt entry of the dashboard config: the legacy plain-string
form, or the dict form whose `prompt` / `end_condition` keys may be absent. -/
inductive LoopPromptConfig where
  | legacy (prompt : String)
  | entry (prompt : Option String) (end_condition : Option String)
  deriving DecidableEq, Repr

/-- Python `dict.get(key)` on a string-keyed dict (keys assumed distinct). -/
def pyDictGet {α : Type} : List (String × α) → String → Option α
  | [], _ => none
  | (k, v) :: rest, key => if k = key then some v else pyDictGet rest key

/-- The dashboard config keys read by the stop hook (hooks/stop.py) and the
timeout sweep (server.py); `none` models an absent key, resolved against the
documented default by each reader. -/
structure DashboardConfig where
  max_loop_iterations : Option Int := none
  loop_prompts : List (String × LoopPromptConfig) := []
  completion_phrases : Option (List String) := none
  agent_timeout_minutes : Option Int := none
  deriving DecidableEq, Repr

/-- `config.get("max_loop_iterations", 50)` (hooks/stop.py line 285). -/
def maxLoopIterations (config : DashboardConfig) : Int :=
  config.max_loop_iterations.getD 50

/-- `check_goal_completion` (hooks/stop.py): the agent text indicates goal
completion when any configured (or default) completion phrase occurs in it
case-insensitively; an empty text never does. -/
def check_goal_completion (agent_text : String) (config : DashboardConfig) : Bool :=
  if agent_text = "" then false
  else
    let phrases := config.completion_phrases.getD DEFAULT_COMPLETION_PHRASES
    phrases.any (fun phrase => strIn (pyLower phrase) (pyLower agent_text))

/-- The `default_config` loop prompt of hooks/stop.py. -/
def stopDefaultLoopPrompt : String :=
  "Continue working. When done, say 'LOOP_COMPLETE: Task finished.'"

/-- The `default_config` end condition of hooks/stop.py. -/
def stopDefaultEndCondition : String := "LOOP_COMPLETE: Task finished."

/-- Lines 287-303 of hooks/stop.py: resolve the loop prompt text and end
condition for the session's selected prompt name, falling back to the
default config when the name is unset, empty, or not in the catalog, and
handling the legacy string format (no end condition). -/
def resolveLoopConfig (config : DashboardConfig) (prompt_name : Option String) :
    String × String :=
  let default_lc : LoopPromptConfig :=
    .entry (some stopDefaultLoopPrompt) (some stopDefaultEndCondition)
  let lc : LoopPromptConfig :=
    match prompt_name with
    | none => default_lc
    | some name =>
        if name = "" then default_lc
        else (pyDictGet config.loop_prompts name).getD default_lc
  match lc with
  | .legacy p => (p, "")
  | .entry p e => (p.getD stopDefaultLoopPrompt, e.getD "")

/-- Lines 305-308 of hooks/stop.py: the end condition is met when it is
configured nonempty, the agent text is nonempty, and it occurs verbatim. -/
def endConditionMet (config : DashboardConfig) (agent_text : String)
    (session : AgentSession) : Bool :=
  let end_condition := (resolveLoopConfig config session.loop_prompt_name).2
  if end_condition ≠ "" ∧ agent_text ≠ "" then strIn end_condition agent_text
  else false

/-- The externally visible follow-up action of a stop-hook loop decision. -/
inductive LoopAction where
  | spawned (message : String)
  | notifiedGoalAchieved
  | notifiedIterationLimit
  deriving DecidableEq, Repr

/-- Lines 284-343 of hooks/stop.py: the loop-continuation decision on a turn
completion of a session with `loop_enabled=true`.  If the end condition or a
generic completion phrase is detected, disable the loop and notify goal
achievement; else if `loop_count` is below the bound, increment it and spawn
the loop prompt; else disable the loop and notify the iteration limit. -/
def loopContinuationStep (config : DashboardConfig) (agent_text : String)
    (session : AgentSession) : AgentSession × LoopAction :=
  let max_iterations := maxLoopIterations config
  let loop_prompt := (resolveLoopConfig config session.loop_prompt_name).1
  let end_condition_met := endConditionMet config agent_text session
  let goal_complete := check_goal_completion agent_text config
  if end_condition_met || goal_complete then
    ({ session with loop_enabled := false }, .notifiedGoalAchieved)
  else if session.loop_count < max_iterations then
    ({ session with loop_count := session.loop_count + 1 }, .spawned loop_prompt)
  else
    ({ session with loop_enabled := false }, .notifiedIterationLimit)

/-- One stop-hook turn as it affects the loop fields: the loop-continuation
step runs only when `loop_enabled` is set (hooks/stop.py line 284); otherwise
the loop fields are untouched (the queued-message branch, modelled
separately, never changes them). -/
def stopHookLoopTurn (config : DashboardConfig) (agent_text : String)
    (session : AgentSession) : AgentSession × Option LoopAction :=
  if session.loop_enabled then
    let r := loopContinuationStep config agent_text session
    (r.1, some r.2)
  else (session, none)

/-- Iterate `stopHookLoopTurn` over successive agent responses, collecting
the emitted loop actions in order. -/
def runLoopTurns (config : DashboardConfig) (session : AgentSession) :
    List String → AgentSession × List LoopAction
  | [] => (session, [])
  | text :: rest =>
      let r := stopHookLoopTurn config text session
      let r2 := runLoopTurns config r.1 rest
      (r2.1, r.2.elim [] (fun a => [a]) ++ r2.2)

/-- Spawn actions among a list of loop actions. -/
def isSpawn : LoopAction → Bool
  | .spawned _ => true
  | _ => false

/-- A session whose loop is disabled is left untouched by the loop turns and
emits no loop action. -/
theorem runLoopTurns_disabled (config : DashboardConfig) (texts : List String)
    (session : AgentSession) (h : session.loop_enabled = false) :
    runLoopTurns config session texts = (session, []) := by
  induction texts with
  | nil => rfl
  | cons t rest ih =>
      simp [runLoopTurns, stopHookLoopTurn, h, ih]

/-- The loop-continuation decision takes exactly one of three branches: goal
achieved (disable, notify), below the bound (increment, spawn the resolved
prompt), or bound reached (disable, notify the iteration limit). -/
theorem loopContinuationStep_trichotomy (config : DashboardConfig)
    (text : String) (s : AgentSession) :
    (loopContinuationStep config text s =
        ({ s with loop_enabled := false }, LoopAction.notifiedGoalAchieved)) ∨
    (s.loop_count < maxLoopIterations config ∧
      loopContinuationStep config text s =
        ({ s with loop_count := s.loop_count + 1 },
         LoopAction.spawned (resolveLoopConfig config s.loop_prompt_name).1)) ∨
    (maxLoopIterations config ≤ s.loop_count ∧
      loopContinuationStep config text s =
        ({ s with loop_enabled := false }, LoopAction.notifiedIterationLimit)) := by
  by_cases h1 : (endConditionMet config text s || check_goal_completion text config) = true
  · left
    simp [loopContinuationStep, h1]
  · by_cases h2 : s.loop_count < maxLoopIterations config
    · right; left
      exact ⟨h2, by simp [loopContinuationStep, h1, h2]⟩
    · right; right
      exact ⟨le_of_not_lt h2, by simp [loopContinuationStep, h1, h2]⟩

/-- C3: bounded loop continuation.  With `loop_enabled=true` and no goal
signal, a turn below the bound increments `loop_count` and spawns the
configured prompt; a turn at or past the bound disables the loop, notifies
the iteration limit, and does not spawn.  Over any run of turns the counter
never exceeds `max(initial, bound)`, the number of spawns is at most the
remaining budget `bound - initial`, and once enough turns have completed the
loop is disabled.  The bound defaults to 50 when unset in the config. -/
theorem loop_iteration_bound (config : DashboardConfig) :
    (config.max_loop_iterations = none → maxLoopIterations config = 50) ∧
    (∀ text s, s.loop_enabled = true →
       endConditionMet config text s = false →
       check_goal_completion text config = false →
       s.loop_count < maxLoopIterations config →
       loopContinuationStep config text s =
         ({ s with loop_count := s.loop_count + 1 },
          LoopAction.spawned (resolveLoopConfig config s.loop_prompt_name).1)) ∧
    (∀ text s, s.loop_enabled = true →
       endConditionMet config text s = false →
       check_goal_completion text config = false →
       maxLoopIterations config ≤ s.loop_count →
       loopContinuationStep config text s =
         ({ s with loop_enabled := false }, LoopAction.notifiedIterationLimit)) ∧
    (∀ s texts, (runLoopTurns config s texts).1.loop_count ≤
       max s.loop_count (maxLoopIterations config)) ∧
    (∀ s texts,
       (maxLoopIterations config - s.loop_count).toNat + 1 ≤ texts.length →
       (runLoopTurns config s texts).1.loop_enabled = false) ∧
    (∀ s texts,
       ((((runLoopTurns config s texts).2.filter isSpawn).length : Int) ≤
         max (maxLoopIterations config - s.loop_count) 0)) := by
  refine ⟨?_, ?_, ?_, ?_, ?_, ?_⟩
  · intro h
    simp [maxLoopIterations, h]
  · intro text s _ hec hgc hlt
    simp [loopContinuationStep, hec, hgc, hlt]
  · intro text s _ hec hgc hge
    simp [loopContinuationStep, hec, hgc, not_lt.mpr hge]
  · intro s texts
    induction texts generalizing s with
    | nil => simp [runLoopTurns]
    | cons t rest ih =>
        by_cases hl : s.loop_enabled = true
        · simp only [runLoopTurns, stopHookLoopTurn, hl, if_true]
          rcases loopContinuationStep_trichotomy config t s with heq | ⟨hlt, heq⟩ | ⟨hge, heq⟩
          · rw [heq]
            have := ih { s with loop_enabled := false }
            simpa using this
          · rw [heq]
            have := ih { s with loop_count := s.loop_count + 1 }
            simp only at this ⊢
            have hm : max (s.loop_count + 1) (maxLoopIterations config) ≤
                max s.loop_count (maxLoopIterations config) := by omega
            exact le_trans this hm
          · rw [heq]
            have := ih { s with loop_enabled := false }
            simpa using this
        · rw [runLoopTurns_disabled config (t :: rest) s (by simpa using hl)]
          exact le_max_left _ _
  · intro s texts
    induction texts generalizing s with
    | nil =>
        intro h
        simp at h
    | cons t rest ih =>
        intro h
        by_cases hl : s.loop_enabled = true
        · simp only [runLoopTurns, stopHookLoopTurn, hl, if_true]
          rcases loopContinuationStep_trichotomy config t s with heq | ⟨hlt, heq⟩ | ⟨hge, heq⟩
          · rw [heq, runLoopTurns_disabled config rest _ (by simp)]
          · rw [heq]
            apply ih
            simp only []
            simp only [List.length_cons] at h
            omega
          · rw [heq, runLoopTurns_disabled config rest _ (by simp)]
        · rw [runLoopTurns_disabled config (t :: rest) s (by simpa using hl)]
          simpa using hl
  · intro s texts
    induction texts generalizing s with
    | nil => simp [runLoopTurns]
    | cons t rest ih =>
        by_cases hl : s.loop_enabled = true
        · simp only [runLoopTurns, stopHookLoopTurn, hl, if_true]
          rcases loopContinuationStep_trichotomy config t s with heq | ⟨hlt, heq⟩ | ⟨hge, heq⟩
          · rw [heq, runLoopTurns_disabled config rest _ (by simp)]
            simp [isSpawn]
          · rw [heq]
            have hrec := ih { s with loop_count := s.loop_count + 1 }
            have hproj : ({ s with loop_count := s.loop_count + 1 } : AgentSession).loop_count
                = s.loop_count + 1 := rfl
            rw [hproj] at hrec
            simp only [Option.elim, List.singleton_append, List.filter_cons, isSpawn,
              if_true, List.length_cons]
            push_cast
            omega
          · rw [heq, runLoopTurns_disabled config rest _ (by simp)]
            simp [isSpawn]
        · rw [runLoopTurns_disabled config (t :: rest) s (by simpa using hl)]
          simp

/-- A concrete looping session used by witnesses. -/
def sampleLoopSession : AgentSession :=
  { session_id := "s1", conversation_id := "c1", workspace_root := "/w",
    workspace_name := "w", loop_enabled := true, loop_count := 0 }

/-- Witness for `loop_iteration_bound`: with the default config and a
response carrying no completion signal, the step increments the counter and
spawns the default prompt. -/
theorem loop_iteration_bound_witness :
    sampleLoopSession.loop_enabled = true ∧
    endConditionMet {} "still working" sampleLoopSession = false ∧
    check_goal_completion "still working" {} = false ∧
    sampleLoopSession.loop_count < maxLoopIterations {} ∧
    loopContinuationStep {} "still working" sampleLoopSession =
      ({ sampleLoopSession with loop_count := sampleLoopSession.loop_count + 1 },
       LoopAction.spawned (resolveLoopConfig {} sampleLoopSession.loop_prompt_name).1) :=
  ⟨by decide, by decide, by decide, by decide,
   (loop_iteration_bound {}).2.1 "still working" sampleLoopSession
     (by decide) (by decide) (by decide) (by decide)⟩

/-- C4: goal-completion detection short-circuits the iteration bound.  For a
session with `loop_enabled=true`, whatever its `loop_count`, if the resolved
(nonempty) end-condition string occurs verbatim in the agent response, or any
configured (or default) nonempty completion phrase occurs case-insensitively,
the turn disables the loop, emits the goal-achieved notification, and issues
no spawn. -/
theorem goal_completion_short_circuit (config : DashboardConfig)
    (text : String) (s : AgentSession)
    (hloop : s.loop_enabled = true)
    (hmet : ((resolveLoopConfig config s.loop_prompt_name).2 ≠ "" ∧
        strIn (resolveLoopConfig config s.loop_prompt_name).2 text = true) ∨
      (∃ p ∈ config.completion_phrases.getD DEFAULT_COMPLETION_PHRASES,
        p ≠ "" ∧ strIn (pyLower p) (pyLower text) = true)) :
    stopHookLoopTurn config text s =
      ({ s with loop_enabled := false }, some LoopAction.notifiedGoalAchieved) := by
  have hcond : (endConditionMet config text s || check_goal_completion text config) = true := by
    rcases hmet with ⟨hne, hin⟩ | ⟨p, hp, hpne, hpin⟩
    · have htext : text ≠ "" := strIn_ne_empty _ text hne hin
      have hec : endConditionMet config text s = true := by
        simp [endConditionMet, hne, htext, hin]
      simp [hec]
    · have hplne : pyLower p ≠ "" := fun hh => hpne (pyLower_eq_empty p hh)
      have hlt : pyLower text ≠ "" := strIn_ne_empty _ _ hplne hpin
      have htext : text ≠ "" := by
        intro hh
        subst hh
        exact hlt rfl
      have hgc : check_goal_completion text config = true := by
        simp only [check_goal_completion, if_neg htext, List.any_eq_true]
        exact ⟨p, hp, hpin⟩
      simp [hgc]
  simp [stopHookLoopTurn, hloop, loopContinuationStep, hcond]

/-- Witness for `goal_completion_short_circuit`: the default end condition
occurring verbatim stops the loop at `loop_count = 3`. -/
theorem goal_completion_short_circuit_witness :
    ({ sampleLoopSession with loop_count := 3 } : AgentSession).loop_enabled = true ∧
    strIn (resolveLoopConfig {}
        ({ sampleLoopSession with loop_count := 3 } : AgentSession).loop_prompt_name).2
      "Done. LOOP_COMPLETE: Task finished." = true ∧
    stopHookLoopTurn {} "Done. LOOP_COMPLETE: Task finished."
        { sampleLoopSession with loop_count := 3 } =
      ({ sampleLoopSession with loop_count := 3, loop_enabled := false },
       some LoopAction.notifiedGoalAchieved) :=
  ⟨by decide, by decide,
   goal_completion_short_circuit {} "Done. LOOP_COMPLETE: Task finished."
     { sampleLoopSession with loop_count := 3 } (by decide)
     (Or.inl ⟨by decide, by decide⟩)⟩

/- ------------------------------------------------------------------
Queued-message processing (server.py process_queued_messages,
hooks/stop.py queued branch)
------------------------------------------------------------------ -/

/-- `next_msg.role = "user"` on the first queued message of the log
(server.py line 233, hooks/stop.py line 353): the mutation of the shared
message object rewrites, in place, the role of the first message whose role
is `queued`; all other messages are untouched. -/
def promoteFirstQueued : List SessionMessage → List SessionMessage
  | [] => []
  | m :: ms =>
      if m.role = Role.queued then { m with role := Role.user } :: ms
      else m :: promoteFirstQueued ms

/-- `process_queued_messages` (server.py lines 203-246), from the session the
store lookup returned.  Result: the session as persisted (unchanged when
nothing was promoted), whether `upsert_session` was called, and the content
handed to the spawn capability (`none` when no spawn was issued). -/
def process_queued_messages (session : AgentSession) :
    AgentSession × Bool × Option String :=
  if session._state ≠ SessionState.idle then (session, false, none)
  else
    match session.messages.filter (fun m => m.role = Role.queued) with
    | [] => (session, false, none)
    | next_msg :: _ =>
        let s1 := { session with messages := promoteFirstQueued session.messages }
        if session.workspace_root ≠ "" ∧ session.conversation_id ≠ "" then
          (s1, true, some next_msg.content)
        else
          (s1, true, none)

/-- Promoting rewrites exactly the first queued message, in place. -/
theorem promoteFirstQueued_append (pre : List SessionMessage)
    (m : SessionMessage) (post : List SessionMessage)
    (hpre : ∀ x ∈ pre, x.role ≠ Role.queued) (hm : m.role = Role.queued) :
    promoteFirstQueued (pre ++ m :: post) =
      pre ++ { m with role := Role.user } :: post := by
  induction pre with
  | nil => simp [promoteFirstQueued, hm]
  | cons p ps ih =>
      have hp : p.role ≠ Role.queued := hpre p (List.mem_cons_self p ps)
      simp only [List.cons_append, promoteFirstQueued, if_neg hp, List.append_eq]
      rw [ih (fun x hx => hpre x (List.mem_cons_of_mem p hx))]

/-- The first queued message of a log split as `pre ++ m :: post` with no
queued message in `pre` is `m`. -/
theorem filter_queued_head (pre : List SessionMessage) (m : SessionMessage)
    (post : List SessionMessage)
    (hpre : ∀ x ∈ pre, x.role ≠ Role.queued) (hm : m.role = Role.queued) :
    (pre ++ m :: post).filter (fun x => x.role = Role.queued) =
      m :: post.filter (fun x => x.role = Role.queued) := by
  induction pre with
  | nil => simp [hm]
  | cons p ps ih =>
      have hp : p.role ≠ Role.queued := hpre p (List.mem_cons_self p ps)
      simp only [List.cons_append, List.filter_cons]
      rw [ih (fun x hx => hpre x (List.mem_cons_of_mem p hx))]
      simp [hp]

/-- C7 (amended): for an idle session whose log splits as `pre ++ m :: post`
with `m` the first queued message, one invocation rewrites exactly `m`'s role
to `user` in place (earlier and later messages unchanged), persists the
session, and — provided the session's workspace root and conversation id are
nonempty — invokes the spawn capability with `m`'s content, and otherwise
spawns nothing; at most one message is promoted and at most one spawn issued. -/
theorem queued_promotion_fifo (session : AgentSession)
    (pre : List SessionMessage) (m : SessionMessage) (post : List SessionMessage)
    (hstate : session._state = SessionState.idle)
    (hsplit : session.messages = pre ++ m :: post)
    (hpre : ∀ x ∈ pre, x.role ≠ Role.queued)
    (hm : m.role = Role.queued) :
    process_queued_messages session =
      ({ session with messages := pre ++ { m with role := Role.user } :: post },
       true,
       if session.workspace_root ≠ "" ∧ session.conversation_id ≠ "" then
         some m.content
       else none) := by
  unfold process_queued_messages
  rw [if_neg (by simp [hstate])]
  rw [hsplit, filter_queued_head pre m post hpre hm,
    promoteFirstQueued_append pre m post hpre hm]
  by_cases hc : session.workspace_root ≠ "" ∧ session.conversation_id ≠ ""
  · simp [hc]
  · simp [hc]

/-- A concrete idle session with queued messages and a usable workspace. -/
def sampleQueuedIdle : AgentSession :=
  { session_id := "s3", conversation_id := "c3", workspace_root := "/w",
    workspace_name := "w",
    messages :=
      [ { role := Role.user, content := "hi", timestamp := 0 },
        { role := Role.queued, content := "next", timestamp := 1 },
        { role := Role.queued, content := "later", timestamp := 2 } ] }

/-- Witness for `queued_promotion_fifo`: only the first queued message is
promoted, the later one is untouched, and its content is spawned. -/
theorem queued_promotion_fifo_witness :
    process_queued_messages sampleQueuedIdle =
      ({ sampleQueuedIdle with messages :=
          [ { role := Role.user, content := "hi", timestamp := 0 },
            { role := Role.user, content := "next", timestamp := 1 },
            { role := Role.queued, content := "later", timestamp := 2 } ] },
       true, some "next") := by
  rw [queued_promotion_fifo sampleQueuedIdle
    [{ role := Role.user, content := "hi", timestamp := 0 }]
    { role := Role.queued, content := "next", timestamp := 1 }
    [{ role := Role.queued, content := "later", timestamp := 2 }]
    (by decide) (by decide) (by decide) (by decide)]
  decide

/-- A concrete idle session with a queued message but no workspace root (as
the stop hook creates when the hook input carries no workspace). -/
def sampleQueuedNoWorkspace : AgentSession :=
  { session_id := "s4", conversation_id := "c4", workspace_root := "",
    workspace_name := "unknown",
    messages := [{ role := Role.queued, content := "hello", timestamp := 0 }] }

/-- Counterexample to C7 as stated: this idle session has a queued message,
and the invocation promotes and persists it, yet the spawn capability is not
invoked with its content — the spawn is skipped because the session's
workspace root is empty. -/
theorem queued_promotion_counterexample :
    sampleQueuedNoWorkspace._state = SessionState.idle ∧
    (∃ m ∈ sampleQueuedNoWorkspace.messages, m.role = Role.queued) ∧
    (process_queued_messages sampleQueuedNoWorkspace).2.1 = true ∧
    (process_queued_messages sampleQueuedNoWorkspace).2.2 = none := by
  decide

/- ------------------------------------------------------------------
Timeout sweep (server.py check_and_reset_timed_out_sessions)
------------------------------------------------------------------ -/

/-- Python `int()` applied to a rational: truncation toward zero. -/
def pyInt (q : ℚ) : Int :=
  if 0 ≤ q then ⌊q⌋ else ⌈q⌉

/-- The synthetic system message content appended by the timeout sweep
(server.py lines 129-137). -/
def timeoutMessageContent (minutes : Int) (old_state : SessionState) : String :=
  "⚠️ **Agent timed out** - no activity for " ++ toString minutes ++
    " minutes (was in state: " ++ old_state.value ++ "). Session reset to idle."

/-- `_get_agent_timeout_minutes` (server.py):
`config.get("agent_timeout_minutes", 15)`. -/
def _get_agent_timeout_minutes (config : DashboardConfig) : Int :=
  config.agent_timeout_minutes.getD 15

/-- The per-session body of `check_and_reset_timed_out_sessions` (server.py
lines 113-141): skip sessions not in a busy state; compute the minutes since
`last_activity`; when at or past the threshold, force the state to `idle`
(through the `state` setter), clear `loop_enabled`, append a system message
recording the truncated elapsed minutes and the prior state, stamp
`last_activity`, and persist.  `now` is the sweep's `datetime.now`, which is
also the default-factory timestamp of the appended message.  Returns the
session as stored and whether it was reset (and persisted). -/
def check_and_reset_session (timeout_minutes : Int) (now : ℚ)
    (session : AgentSession) : AgentSession × Bool :=
  if ¬ session._state.is_busy then (session, false)
  else
    let minutes_inactive : ℚ := (now - session.last_activity) / 60
    if (timeout_minutes : ℚ) ≤ minutes_inactive then
      let old_state := session._state
      let s1 := setState session SessionState.idle
      let s2 := { s1 with
        loop_enabled := false,
        messages := s1.messages ++
          [{ role := Role.system,
             content := timeoutMessageContent (pyInt minutes_inactive) old_state,
             timestamp := now }],
        last_activity := now }
      (s2, true)
    else (session, false)

/-- C8: the timeout sweep resets exactly the busy, timed-out sessions.  A
busy session whose minutes since `last_activity` reach the threshold is set
to `idle`, its loop flag cleared, a system message recording the integer
elapsed minutes and the prior state appended, and persisted; a session that
is not busy, or within the threshold, is not mutated.  The threshold
defaults to 15 when unset in the config. -/
theorem timeout_sweep_spec (timeout_minutes : Int) (now : ℚ)
    (session : AgentSession) :
    (∀ c : DashboardConfig, c.agent_timeout_minutes = none →
       _get_agent_timeout_minutes c = 15) ∧
    (session._state.is_busy = true →
      (timeout_minutes : ℚ) ≤ (now - session.last_activity) / 60 →
      check_and_reset_session timeout_minutes now session =
        ({ session with
            _state := SessionState.idle,
            status := SessionStatus.idle,
            loop_enabled := false,
            messages := session.messages ++
              [{ role := Role.system,
                 content := timeoutMessageContent
                   (pyInt ((now - session.last_activity) / 60)) session._state,
                 timestamp := now }],
            last_activity := now }, true)) ∧
    (session._state.is_busy = false →
      check_and_reset_session timeout_minutes now session = (session, false)) ∧
    ((now - session.last_activity) / 60 < (timeout_minutes : ℚ) →
      check_and_reset_session timeout_minutes now session = (session, false)) := by
  refine ⟨?_, ?_, ?_, ?_⟩
  · intro c hc
    simp [_get_agent_timeout_minutes, hc]
  · intro hbusy hmin
    simp only [check_and_reset_session, hbusy, not_true, if_neg, if_pos hmin]
    simp [setState, SessionStatus.from_state, SessionState.is_busy]
  · intro hidle
    simp [check_and_reset_session, hidle]
  · intro hlt
    by_cases hbusy : session._state.is_busy = true
    · simp [check_and_reset_session, hbusy, not_le.mpr hlt]
    · simp [check_and_reset_session, Bool.not_eq_true _ ▸ hbusy]

/-- A concrete busy session whose last activity was 20 minutes before the
sweep (scenario D of the spec: `state=Active`, 20 minutes ago, threshold 15). -/
def sampleBusySession : AgentSession :=
  { session_id := "s5", conversation_id := "c5", workspace_root := "/w",
    workspace_name := "w", _state := SessionState.active,
    status := SessionStatus.active, last_activity := 0, loop_enabled := true }

/-- Witness for `timeout_sweep_spec`: at `now = 1200` seconds (20 minutes)
and threshold 15, the sample busy session is reset to `idle`, its loop
cleared, and the appended system message cites 20 minutes and the prior
state `"active"`. -/
theorem timeout_sweep_spec_witness :
    sampleBusySession._state.is_busy = true ∧
    ((15 : Int) : ℚ) ≤ ((1200 : ℚ) - sampleBusySession.last_activity) / 60 ∧
    (check_and_reset_session 15 1200 sampleBusySession).2 = true ∧
    (check_and_reset_session 15 1200 sampleBusySession).1._state =
      SessionState.idle ∧
    (check_and_reset_session 15 1200 sampleBusySession).1.loop_enabled = false ∧
    (check_and_reset_session 15 1200 sampleBusySession).1.messages =
      [{ role := Role.system,
         content := "⚠️ **Agent timed out** - no activity for 20 minutes (was in state: active). Session reset to idle.",
         timestamp := 1200 }] := by
  have hmin : ((15 : Int) : ℚ) ≤ ((1200 : ℚ) - sampleBusySession.last_activity) / 60 := by
    norm_num [sampleBusySession]
  have h := (timeout_sweep_spec 15 1200 sampleBusySession).2.1 (by decide) hmin
  have hdiv : ((1200 : ℚ) - sampleBusySession.last_activity) / 60 = 20 := by
    norm_num [sampleBusySession]
  rw [hdiv] at h
  refine ⟨by decide, hmin, ?_, ?_, ?_, ?_⟩
  · rw [h]
  · rw [h]
  · rw [h]
  · rw [h]
    decide

/-- C9: the timeout sweep is idempotent on non-busy sessions — for a session
whose state is `idle` (or any other non-busy state) it neither mutates nor
persists the session's record. -/
theorem timeout_sweep_idempotent (timeout_minutes : Int) (now : ℚ)
    (session : AgentSession) (h : session._state.is_busy = false) :
    check_and_reset_session timeout_minutes now session = (session, false) := by
  simp [check_and_reset_session, h]

/-- Witness for `timeout_sweep_idempotent`: an already-reset (idle) session,
however stale, is untouched by a further sweep. -/
theorem timeout_sweep_idempotent_witness :
    ({ sampleBusySession with
        _state := SessionState.idle,
        status := SessionStatus.idle,
        loop_enabled := false } : AgentSession)._state.is_busy = false ∧
    check_and_reset_session 15 99999
      { sampleBusySession with
          _state := SessionState.idle,
          status := SessionStatus.idle,
          loop_enabled := false } =
      ({ sampleBusySession with
          _state := SessionState.idle,
          status := SessionStatus.idle,
          loop_enabled := false }, false) :=
  ⟨by decide,
   timeout_sweep_idempotent 15 99999
     { sampleBusySession with
         _state := SessionState.idle,
         status := SessionStatus.idle,
         loop_enabled := false } (by decide)⟩

/- ------------------------------------------------------------------
JSON values and serialization (models.py to_dict / from_dict)
------------------------------------------------------------------ -/

/-- A value as produced by `json.load` of the store file.  `time` carries the
image of a `datetime` under the exact `isoformat` codec (see the module
conventions); `num` covers the integers the store writes (it never writes
fractional numbers). -/
inductive JValue where
  | null
  | bool (b : Bool)
  | num (n : Int)
  | str (s : String)
  | time (t : ℚ)
  | arr (elems : List JValue)
  | obj (fields : List (String × JValue))

/-- `d[k]` on a JSON object: `KeyError` when the key is absent. -/
def getItem (fields : List (String × JValue)) (k : String) : Except PyErr JValue :=
  match pyDictGet fields k with
  | some v => .ok v
  | none => .error .keyError

/-- `d.get(k)`: `None` (null) when the key is absent. -/
def pyGet (fields : List (String × JValue)) (k : String) : JValue :=
  (pyDictGet fields k).getD .null

/-- `d.get(k, default)`: the default only when the key is absent (a key
present with a null value yields null). -/
def pyGetD (fields : List (String × JValue)) (k : String) (dflt : JValue) : JValue :=
  (pyDictGet fields k).getD dflt

/-- Python truthiness of a JSON-loaded value (a datetime is always truthy). -/
def pyTruthy : JValue → Bool
  | .null => false
  | .bool b => b
  | .num n => decide (n ≠ 0)
  | .str s => decide (s ≠ "")
  | .time _ => true
  | .arr l => !l.isEmpty
  | .obj l => !l.isEmpty

/-- Expect a string.  A value of another type is rejected eagerly as a type
error, where the unchecked Python dataclass would store it and fail at first
typed use. -/
def asStr : JValue → Except PyErr String
  | .str s => .ok s
  | _ => .error .typeError

/-- `datetime.fromisoformat`: succeeds exactly on the `isoformat` image of a
datetime; a plain (non-ISO) string raises `ValueError`, a non-string
`TypeError`. -/
def asTime : JValue → Except PyErr ℚ
  | .time t => .ok t
  | .str _ => .error .valueError
  | _ => .error .typeError

/-- Expect an optional string (null or string). -/
def asOptStr : JValue → Except PyErr (Option String)
  | .null => .ok none
  | .str s => .ok (some s)
  | _ => .error .typeError

/-- Expect an optional integer (null or number). -/
def asOptInt : JValue → Except PyErr (Option Int)
  | .null => .ok none
  | .num n => .ok (some n)
  | _ => .error .typeError

/-- Expect a boolean. -/
def asBool : JValue → Except PyErr Bool
  | .bool b => .ok b
  | _ => .error .typeError

/-- Expect an integer. -/
def asInt : JValue → Except PyErr Int
  | .num n => .ok n
  | _ => .error .typeError

/-- Expect a JSON array. -/
def asArr : JValue → Except PyErr (List JValue)
  | .arr l => .ok l
  | _ => .error .typeError

/-- The dict comprehension / argument evaluation order of Python: map a
fallible builder over a list, stopping at the first raised error. -/
def mapExcept {α β : Type} (f : α → Except PyErr β) :
    List α → Except PyErr (List β)
  | [] => .ok []
  | a :: rest => do
      let b ← f a
      let bs ← mapExcept f rest
      .ok (b :: bs)

/-- Expect a list of strings. -/
def asStrList (v : JValue) : Except PyErr (List String) := do
  mapExcept asStr (← asArr v)

/-- Expect an optional list of strings (null or array of strings). -/
def asOptStrList : JValue → Except PyErr (Option (List String))
  | .null => .ok none
  | .arr l => (mapExcept asStr l).map some
  | _ => .error .typeError

/-- Serialize an optional string (None becomes null). -/
def optStrJ : Option String → JValue
  | none => .null
  | some s => .str s

/-- Serialize an optional integer. -/
def optIntJ : Option Int → JValue
  | none => .null
  | some n => .num n

/-- Serialize an optional datetime (`x.isoformat() if x else None`; a
datetime object is always truthy). -/
def optTimeJ : Option ℚ → JValue
  | none => .null
  | some t => .time t

/-- Serialize a list of strings. -/
def strListJ (l : List String) : JValue :=
  .arr (l.map JValue.str)

/-- Serialize an optional list of strings. -/
def optStrListJ : Option (List String) → JValue
  | none => .null
  | some l => strListJ l

/-- `SessionMessage.to_dict` (models.py lines 85-93). -/
def SessionMessage.to_dict (m : SessionMessage) : JValue :=
  .obj [ ("role", .str m.role.value),
         ("content", .str m.content),
         ("timestamp", .time m.timestamp),
         ("message_id", optStrJ m.message_id),
         ("tool_calls", optStrListJ m.tool_calls) ]

/-- Subscripting (`data[...]`) expects a dict here; another JSON value is a
type error. -/
def asObjFields : JValue → Except PyErr (List (String × JValue))
  | .obj l => .ok l
  | _ => .error .typeError

/-- `SessionMessage.from_dict` (models.py lines 95-104).  The `role` literal
annotation is modelled as the enumerated role type: a record with any other
role string is rejected as a type error, where the unchecked Python
dataclass would store it unvalidated. -/
def SessionMessage.from_dict (data : JValue) : Except PyErr SessionMessage := do
  let fields ← asObjFields data
  let roleS ← asStr (← getItem fields "role")
  let role ← match Role.ofValue roleS with
    | some r => Except.ok r
    | none => Except.error PyErr.typeError
  let content ← asStr (← getItem fields "content")
  let timestamp ← asTime (← getItem fields "timestamp")
  let message_id ← asOptStr (pyGet fields "message_id")
  let tool_calls ← asOptStrList (pyGet fields "tool_calls")
  .ok { role := role, content := content, timestamp := timestamp,
        message_id := message_id, tool_calls := tool_calls }

/-- `AgentSession.to_dict` (models.py lines 160-191), in the key order the
source writes. -/
def AgentSession.to_dict (s : AgentSession) : JValue :=
  .obj [ ("session_id", .str s.session_id),
         ("conversation_id", .str s.conversation_id),
         ("workspace_root", .str s.workspace_root),
         ("workspace_name", .str s.workspace_name),
         ("state", .str s._state.value),
         ("status", .str s.status.value),
         ("started_at", .time s.started_at),
         ("last_activity", .time s.last_activity),
         ("current_task", optStrJ s.current_task),
         ("messages", .arr (s.messages.map SessionMessage.to_dict)),
         ("pending_dashboard_messages", strListJ s.pending_dashboard_messages),
         ("files_changed", strListJ s.files_changed),
         ("tools_used", strListJ s.tools_used),
         ("agent_pid", optIntJ s.agent_pid),
         ("loop_enabled", .bool s.loop_enabled),
         ("loop_count", .num s.loop_count),
         ("loop_prompt_name", optStrJ s.loop_prompt_name),
         ("loop_started_at", optTimeJ s.loop_started_at),
         ("review_enabled", .bool s.review_enabled),
         ("review_constraints", optStrJ s.review_constraints),
         ("review_iteration", .num s.review_iteration),
         ("max_review_iterations", .num s.max_review_iterations),
         ("in_review_cycle", .bool s.in_review_cycle),
         ("review_satisfied", .bool s.review_satisfied),
         ("last_reviewed_files", strListJ s.last_reviewed_files) ]

/-- `AgentSession.from_dict` (models.py lines 193-232), field reads in the
constructor-argument order of the source.  The `state` key falls back to the
status string when absent or null (backwards compatibility); membership of
`state` in the closed state set is validated eagerly here, where Python
defers it to the first `state` property access. -/
def AgentSession.from_dict (data : JValue) : Except PyErr AgentSession := do
  let fields ← asObjFields data
  let loop_started_at_v := pyGet fields "loop_started_at"
  let state_v :=
    match pyGet fields "state" with
    | .null => pyGetD fields "status" (.str "idle")
    | v => v
  let session_id ← asStr (← getItem fields "session_id")
  let conversation_id ← asStr (← getItem fields "conversation_id")
  let workspace_root ← asStr (← getItem fields "workspace_root")
  let workspace_name ← asStr (← getItem fields "workspace_name")
  let state ← match SessionState.ofValue (← asStr state_v) with
    | some st => Except.ok st
    | none => Except.error PyErr.valueError
  let status ← match SessionStatus.ofValue (← asStr (pyGetD fields "status" (.str "idle"))) with
    | some st => Except.ok st
    | none => Except.error PyErr.valueError
  let started_at ← asTime (← getItem fields "started_at")
  let last_activity ← asTime (← getItem fields "last_activity")
  let current_task ← asOptStr (pyGet fields "current_task")
  let messages ← mapExcept SessionMessage.from_dict
    (← asArr (pyGetD fields "messages" (.arr [])))
  let pending_dashboard_messages ← asStrList
    (pyGetD fields "pending_dashboard_messages" (.arr []))
  let files_changed ← asStrList (pyGetD fields "files_changed" (.arr []))
  let tools_used ← asStrList (pyGetD fields "tools_used" (.arr []))
  let agent_pid ← asOptInt (pyGet fields "agent_pid")
  let loop_enabled ← asBool (pyGetD fields "loop_enabled" (.bool false))
  let loop_count ← asInt (pyGetD fields "loop_count" (.num 0))
  let loop_prompt_name ← asOptStr (pyGet fields "loop_prompt_name")
  let loop_started_at ←
    if pyTruthy loop_started_at_v then (asTime loop_started_at_v).map some
    else Except.ok none
  let review_enabled ← asBool (pyGetD fields "review_enabled" (.bool false))
  let review_constraints ← asOptStr (pyGet fields "review_constraints")
  let review_iteration ← asInt (pyGetD fields "review_iteration" (.num 0))
  let max_review_iterations ← asInt (pyGetD fields "max_review_iterations" (.num 3))
  let in_review_cycle ← asBool (pyGetD fields "in_review_cycle" (.bool false))
  let review_satisfied ← asBool (pyGetD fields "review_satisfied" (.bool false))
  let last_reviewed_files ← asStrList (pyGetD fields "last_reviewed_files" (.arr []))
  .ok { session_id := session_id, conversation_id := conversation_id,
        workspace_root := workspace_root, workspace_name := workspace_name,
        _state := state, status := status, started_at := started_at,
        last_activity := last_activity, current_task := current_task,
        messages := messages,
        pending_dashboard_messages := pending_dashboard_messages,
        files_changed := files_changed, tools_used := tools_used,
        agent_pid := agent_pid, loop_enabled := loop_enabled,
        loop_count := loop_count, loop_prompt_name := loop_prompt_name,
        loop_started_at := loop_started_at, review_enabled := review_enabled,
        review_constraints := review_constraints,
        review_iteration := review_iteration,
        max_review_iterations := max_review_iterations,
        in_review_cycle := in_review_cycle,
        review_satisfied := review_satisfied,
        last_reviewed_files := last_reviewed_files }

/- ------------------------------------------------------------------
Persistent store (store.py)
------------------------------------------------------------------ -/

/-- The canonical sessions file as `_read_sessions` observes it: absent,
present but not decodable as JSON, or holding a decoded JSON value. -/
inductive FileContent where
  | missing
  | undecodable
  | json (v : JValue)

/-- `data.items()`: only a dict has `.items`; any other JSON value raises
`AttributeError`. -/
def dictItems : JValue → Except PyErr (List (String × JValue))
  | .obj l => .ok l
  | _ => .error .attributeError

/-- The computation inside the `try` of `SessionStore._read_sessions`
(store.py lines 72-75), before exception handling: `json.load` of the file
followed by the dict comprehension `{sid: AgentSession.from_dict(s) ...}`.
A missing file returns the empty dict before the `try`. -/
def readSessionsRaw : FileContent → Except PyErr (List (String × AgentSession))
  | .missing => .ok []
  | .undecodable => .error .jsonDecodeError
  | .json v => do
      let items ← dictItems v
      mapExcept (fun p => (AgentSession.from_dict p.2).map (fun s => (p.1, s))) items

namespace SessionStore

/-- `SessionStore._read_sessions` (store.py lines 67-77): the
`except (json.JSONDecodeError, KeyError)` clause turns exactly those two
error classes into the empty collection; any other error propagates. -/
def _read_sessions (fc : FileContent) :
    Except PyErr (List (String × AgentSession)) :=
  match readSessionsRaw fc with
  | .error .jsonDecodeError => .ok []
  | .error .keyError => .ok []
  | r => r

/-- `SessionStore._write_sessions` (store.py lines 79-86): serialize every
session and atomically replace the canonical file. -/
def _write_sessions (sessions : List (String × AgentSession)) : FileContent :=
  .json (.obj (sessions.map (fun p => (p.1, p.2.to_dict))))

/-- Python dict assignment `d[k] = v`: replace the existing entry in place,
or append a new one. -/
def assocUpdate {α : Type} : List (String × α) → String → α → List (String × α)
  | [], k, v => [(k, v)]
  | (k0, v0) :: rest, k, v =>
      if k0 = k then (k, v) :: rest
      else (k0, v0) :: assocUpdate rest k v

/-- `SessionStore.get_session` (store.py lines 88-92). -/
def get_session (fc : FileContent) (session_id : String) :
    Except PyErr (Option AgentSession) := do
  let sessions ← _read_sessions fc
  .ok (pyDictGet sessions session_id)

/-- `SessionStore.upsert_session` (store.py lines 107-112): read the whole
collection, set the entry, write the whole collection back. -/
def upsert_session (fc : FileContent) (session : AgentSession) :
    Except PyErr FileContent := do
  let sessions ← _read_sessions fc
  .ok (_write_sessions (assocUpdate sessions session.session_id session))

/-- `SessionStore.update_session_status` (store.py lines 114-131): set the
given simplified status directly on the stored session (the detailed state
is not consulted or changed), stamp `last_activity`, optionally replace
`current_task`, and write back; an unknown id is a `none` outcome with the
file untouched. -/
def update_session_status (fc : FileContent) (session_id : String)
    (status : SessionStatus) (current_task : Option String) (now : ℚ) :
    Except PyErr (FileContent × Option AgentSession) := do
  let sessions ← _read_sessions fc
  match pyDictGet sessions session_id with
  | none => .ok (fc, none)
  | some session =>
      let s2 := { session with
        status := status,
        last_activity := now,
        current_task :=
          match current_task with
          | none => session.current_task
          | some t => some t }
      .ok (_write_sessions (assocUpdate sessions session_id s2), some s2)

/-- `SessionStore.add_message` (store.py lines 133-142). -/
def add_message (fc : FileContent) (session_id : String)
    (message : SessionMessage) (now : ℚ) : Except PyErr (FileContent × Bool) := do
  let sessions ← _read_sessions fc
  match pyDictGet sessions session_id with
  | none => .ok (fc, false)
  | some session =>
      let s2 := { session with
        messages := session.messages ++ [message],
        last_activity := now }
      .ok (_write_sessions (assocUpdate sessions session_id s2), true)

end SessionStore

/- ------------------------------------------------------------------
Serialization round trip
------------------------------------------------------------------ -/

/-- Role strings round-trip. -/
theorem role_value_roundtrip (r : Role) : Role.ofValue r.value = some r := by
  cases r <;> rfl

/-- State strings round-trip. -/
theorem state_value_roundtrip (st : SessionState) :
    SessionState.ofValue st.value = some st := by
  cases st <;> rfl

/-- Status strings round-trip. -/
theorem status_value_roundtrip (st : SessionStatus) :
    SessionStatus.ofValue st.value = some st := by
  cases st <;> rfl

/-- Optional strings round-trip. -/
theorem asOptStr_optStrJ (o : Option String) : asOptStr (optStrJ o) = .ok o := by
  cases o <;> rfl

/-- Optional integers round-trip. -/
theorem asOptInt_optIntJ (o : Option Int) : asOptInt (optIntJ o) = .ok o := by
  cases o <;> rfl

/-- Bind on a successful `Except` computation reduces. -/
@[simp] theorem pyBind_ok {α β : Type} (a : α) (f : α → Except PyErr β) :
    (Except.ok a : Except PyErr α) >>= f = f a := rfl

/-- Bind on a failed `Except` computation propagates the error. -/
@[simp] theorem pyBind_error {α β : Type} (e : PyErr) (f : α → Except PyErr β) :
    (Except.error e : Except PyErr α) >>= f = Except.error e := rfl

/-- Map on a successful `Except` computation reduces. -/
@[simp] theorem pyMap_ok {α β : Type} (a : α) (f : α → β) :
    Except.map f (Except.ok a : Except PyErr α) = Except.ok (f a) := rfl

/-- Map on a failed `Except` computation propagates the error. -/
@[simp] theorem pyMap_error {α β : Type} (e : PyErr) (f : α → β) :
    Except.map f (Except.error e : Except PyErr α) = Except.error e := rfl

/-- Lists of strings round-trip through `mapExcept asStr`. -/
theorem mapExcept_asStr (l : List String) :
    mapExcept asStr (l.map JValue.str) = .ok l := by
  induction l with
  | nil => rfl
  | cons a rest ih => simp [mapExcept, asStr, ih]

/-- String lists round-trip. -/
theorem asStrList_strListJ (l : List String) : asStrList (strListJ l) = .ok l := by
  simp [asStrList, strListJ, asArr, mapExcept_asStr]

/-- Optional string lists round-trip. -/
theorem asOptStrList_optStrListJ (o : Option (List String)) :
    asOptStrList (optStrListJ o) = .ok o := by
  cases o with
  | none => rfl
  | some l => simp [asOptStrList, optStrListJ, strListJ, mapExcept_asStr]

/-- Message serialization round-trips. -/
theorem message_from_to (m : SessionMessage) :
    SessionMessage.from_dict m.to_dict = .ok m := by
  obtain ⟨role, content, timestamp, message_id, tool_calls⟩ := m
  simp [SessionMessage.from_dict, SessionMessage.to_dict, asObjFields, getItem,
    pyGet, pyGetD, pyDictGet, asStr, asTime, role_value_roundtrip,
    asOptStr_optStrJ, asOptStrList_optStrListJ]

/-- Message lists round-trip. -/
theorem mapExcept_messages (l : List SessionMessage) :
    mapExcept SessionMessage.from_dict (l.map SessionMessage.to_dict) = .ok l := by
  induction l with
  | nil => rfl
  | cons m rest ih => simp [mapExcept, message_from_to, ih]

/-- Session serialization round-trips: `from_dict (to_dict s)` restores every
field of `s`, including empty message logs and unset optional fields. -/
theorem session_from_to (s : AgentSession) :
    AgentSession.from_dict s.to_dict = .ok s := by
  obtain ⟨sid, cid, wroot, wname, st, stat, sa, la, ct, msgs, pdm, fcg, tu, ap,
    le, lcnt, lpn, lsa, re, rcs, ri, mri, irc, rsat, lrf⟩ := s
  cases lsa <;>
  simp [AgentSession.from_dict, AgentSession.to_dict, asObjFields, getItem,
    pyGet, pyGetD, pyDictGet, asStr, asTime, asBool, asInt, asArr,
    asOptStr_optStrJ, asOptInt_optIntJ, asStrList_strListJ,
    asOptStrList_optStrListJ, mapExcept_messages, optTimeJ, pyTruthy,
    state_value_roundtrip, status_value_roundtrip]

/-- Reading a file just written restores every session record. -/
theorem read_write_sessions (l : List (String × AgentSession)) :
    SessionStore._read_sessions (SessionStore._write_sessions l) = .ok l := by
  have hraw : readSessionsRaw (SessionStore._write_sessions l) = .ok l := by
    simp only [SessionStore._write_sessions, readSessionsRaw, dictItems, pyBind_ok]
    induction l with
    | nil => rfl
    | cons p rest ih => simp [mapExcept, session_from_to, ih]
  simp [SessionStore._read_sessions, hraw]

/-- Looking up the key just set in a dict finds the new value. -/
theorem pyDictGet_assocUpdate {α : Type} (l : List (String × α)) (k : String)
    (v : α) : pyDictGet (SessionStore.assocUpdate l k v) k = some v := by
  induction l with
  | nil => simp [SessionStore.assocUpdate, pyDictGet]
  | cons p rest ih =>
      obtain ⟨k0, v0⟩ := p
      by_cases h : k0 = k
      · simp [SessionStore.assocUpdate, pyDictGet, h]
      · simp [SessionStore.assocUpdate, pyDictGet, h, ih]

/-- C5: store round trip — whenever `upsert_session s` completes on the
current store file, `get_session s.session_id` on the resulting file returns
a record field-equal to `s` (empty message logs and unset optional fields
included). -/
theorem store_roundtrip (fc : FileContent) (s : AgentSession) (fc2 : FileContent)
    (hup : SessionStore.upsert_session fc s = .ok fc2) :
    SessionStore.get_session fc2 s.session_id = .ok (some s) := by
  unfold SessionStore.upsert_session at hup
  cases hread : SessionStore._read_sessions fc with
  | error e => rw [hread] at hup; exact absurd hup (by simp)
  | ok m =>
      rw [hread] at hup
      simp only [pyBind_ok, Except.ok.injEq] at hup
      subst hup
      unfold SessionStore.get_session
      rw [read_write_sessions]
      simp [pyDictGet_assocUpdate]

/-- A session with most optional fields populated, for the round-trip
witness. -/
def sampleRichSession : AgentSession :=
  { session_id := "rich", conversation_id := "c7", workspace_root := "/w",
    workspace_name := "w", _state := SessionState.turn_complete,
    status := SessionStatus.idle, started_at := 10, last_activity := 20,
    current_task := some "task",
    messages :=
      [ { role := Role.assistant, content := "done", timestamp := 15,
          message_id := some "m1", tool_calls := some ["bash"] } ],
    pending_dashboard_messages := ["note"], files_changed := ["a.py"],
    tools_used := ["bash"], agent_pid := some 42, loop_enabled := true,
    loop_count := 7, loop_prompt_name := some "coverage",
    loop_started_at := some 12, review_enabled := true,
    review_constraints := some "be strict", review_iteration := 1,
    max_review_iterations := 3, in_review_cycle := true,
    review_satisfied := false, last_reviewed_files := ["a.py"] }

/-- Witness for `store_roundtrip`: upserting the rich sample session into an
empty store file and reading it back restores it field-for-field. -/
theorem store_roundtrip_witness :
    (SessionStore.upsert_session (.json (.obj [])) sampleRichSession).bind
      (fun fc2 => SessionStore.get_session fc2 "rich") =
      .ok (some sampleRichSession) := by
  have hup : SessionStore.upsert_session (.json (.obj [])) sampleRichSession =
      .ok (SessionStore._write_sessions [("rich", sampleRichSession)]) := rfl
  rw [hup]
  exact store_roundtrip (.json (.obj [])) sampleRichSession _ hup

/-- Counterexample to C6 as stated: a canonical file holding valid JSON whose
top level is a list rather than an object.  `json.load` succeeds, then
`data.items()` raises `AttributeError`, which the
`except (json.JSONDecodeError, KeyError)` clause does not catch — the read
raises to its caller instead of treating the file as an empty collection. -/
theorem malformed_store_counterexample :
    SessionStore._read_sessions (.json (.arr [])) = .error .attributeError := rfl

/-- C6 (amended): a missing canonical file, a file whose bytes fail JSON
decoding, and a decoded file whose record-building fails with a missing key
(`KeyError`) are all treated as the empty session collection; only those
error classes are swallowed, and any other failure of the read (such as the
`AttributeError` of a non-object top level) propagates to the caller. -/
theorem malformed_store_empty (fc : FileContent) :
    (SessionStore._read_sessions .missing = .ok []) ∧
    (SessionStore._read_sessions .undecodable = .ok []) ∧
    (readSessionsRaw fc = .error .jsonDecodeError →
       SessionStore._read_sessions fc = .ok []) ∧
    (readSessionsRaw fc = .error .keyError →
       SessionStore._read_sessions fc = .ok []) ∧
    (∀ e, readSessionsRaw fc = .error e → e ≠ .jsonDecodeError →
       e ≠ .keyError → SessionStore._read_sessions fc = .error e) := by
  refine ⟨rfl, rfl, ?_, ?_, ?_⟩
  · intro h
    simp [SessionStore._read_sessions, h]
  · intro h
    simp [SessionStore._read_sessions, h]
  · intro e h h1 h2
    cases e
    · exact absurd rfl h2
    · simp [SessionStore._read_sessions, h]
    · simp [SessionStore._read_sessions, h]
    · simp [SessionStore._read_sessions, h]
    · exact absurd rfl h1

/-- Witness for `malformed_store_empty`: undecodable bytes are swallowed as
a decode error, and an object whose record lacks the required keys is
swallowed as a `KeyError` — both read back as the empty collection. -/
theorem malformed_store_empty_witness :
    (readSessionsRaw .undecodable = .error .jsonDecodeError) ∧
    (SessionStore._read_sessions .undecodable = .ok []) ∧
    (readSessionsRaw (.json (.obj [("x", .obj [])])) = .error .keyError) ∧
    (SessionStore._read_sessions (.json (.obj [("x", .obj [])])) = .ok []) :=
  ⟨rfl, (malformed_store_empty .undecodable).2.2.1 rfl, rfl,
   (malformed_store_empty (.json (.obj [("x", .obj [])]))).2.2.2.1 rfl⟩

/-- A plain idle session satisfying the status invariant. -/
def samplePlainIdle : AgentSession :=
  { session_id := "s6", conversation_id := "c6", workspace_root := "/w",
    workspace_name := "w" }

/-- Counterexample to C2 as stated: `SessionStore.update_session_status`
writes the given simplified status directly without consulting or changing
the detailed state.  Marking this stored idle session active leaves
`state = idle` with `status = active`, so the persisted record no longer
satisfies `status = from_state(state)`. -/
theorem status_projection_counterexample :
    statusInv samplePlainIdle ∧
    SessionStore.update_session_status
        (SessionStore._write_sessions [("s6", samplePlainIdle)]) "s6"
        SessionStatus.active none 5 =
      .ok (SessionStore._write_sessions
             [("s6", { samplePlainIdle with
                        status := SessionStatus.active, last_activity := 5 })],
           some { samplePlainIdle with
                   status := SessionStatus.active, last_activity := 5 }) ∧
    ¬ statusInv { samplePlainIdle with
                   status := SessionStatus.active, last_activity := 5 } := by
  refine ⟨by decide, rfl, by decide⟩

/-- A successful dict lookup names an entry of the dict. -/
theorem pyDictGet_mem {α : Type} (l : List (String × α)) (k : String) (v : α)
    (h : pyDictGet l k = some v) : (k, v) ∈ l := by
  induction l with
  | nil => simp [pyDictGet] at h
  | cons p rest ih =>
      obtain ⟨k0, v0⟩ := p
      by_cases hk : k0 = k
      · subst hk
        simp [pyDictGet] at h
        simp [h]
      · simp [pyDictGet, hk] at h
        exact List.mem_cons_of_mem _ (ih h)

/-- Entries of an updated dict are the new entry or old entries. -/
theorem mem_assocUpdate {α : Type} (l : List (String × α)) (k : String) (v : α)
    (p : String × α) (h : p ∈ SessionStore.assocUpdate l k v) :
    p = (k, v) ∨ p ∈ l := by
  induction l with
  | nil => simpa [SessionStore.assocUpdate] using h
  | cons q rest ih =>
      obtain ⟨k0, v0⟩ := q
      by_cases hk : k0 = k
      · simp [SessionStore.assocUpdate, hk] at h
        rcases h with h | h
        · left; simp [h]
        · right; exact List.mem_cons_of_mem _ h
      · simp only [SessionStore.assocUpdate, if_neg hk, List.mem_cons] at h
        rcases h with h | h
        · right; simp [h]
        · rcases ih h with h2 | h2
          · exact Or.inl h2
          · exact Or.inr (List.mem_cons_of_mem _ h2)

/-- C2 (amended): the `state` property setter always re-derives the
simplified status from the new state, so state-machine event processing, the
timeout sweep, queued-message promotion and the loop-continuation step all
preserve `status = from_state(state)`, and `add_message` preserves it for
every stored record; `SessionStore.update_session_status`, by contrast, sets
the simplified status directly, independently of the detailed state (see the
counterexample). -/
theorem status_projection_inv :
    (∀ s v, statusInv (setState s v)) ∧
    (∀ transitions s event, statusInv s →
       statusInv (process_event transitions s event).1) ∧
    (∀ timeout now s, statusInv s →
       statusInv (check_and_reset_session timeout now s).1) ∧
    (∀ s, statusInv s → statusInv (process_queued_messages s).1) ∧
    (∀ config text s, statusInv s →
       statusInv (loopContinuationStep config text s).1) ∧
    (∀ fc session_id msg now sessions fc2 b sessions2,
       SessionStore._read_sessions fc = .ok sessions →
       (∀ p ∈ sessions, statusInv p.2) →
       SessionStore.add_message fc session_id msg now = .ok (fc2, b) →
       SessionStore._read_sessions fc2 = .ok sessions2 →
       ∀ p ∈ sessions2, statusInv p.2) := by
  refine ⟨?_, ?_, ?_, ?_, ?_, ?_⟩
  · intro s v
    simp [statusInv, setState]
  · intro transitions s event hinv
    rw [process_event_eq_firstMatching]
    cases hfm : firstMatching s event transitions with
    | none => simpa using hinv
    | some t => simp [statusInv, setState, applyTransitionAction_eq]
  · intro timeout now s hinv
    unfold check_and_reset_session
    by_cases hbusy : s._state.is_busy
    · simp only [hbusy, not_true, if_neg, if_false]
      by_cases hmin : (timeout : ℚ) ≤ (now - s.last_activity) / 60
      · simp [hmin, statusInv, setState]
      · simp [hmin, hinv]
    · simp [hbusy, hinv]
  · intro s hinv
    unfold process_queued_messages
    by_cases hidle : s._state ≠ SessionState.idle
    · simp [hidle, hinv]
    · simp only [hidle, if_false]
      cases s.messages.filter (fun m => m.role = Role.queued) with
      | nil => simpa using hinv
      | cons next rest =>
          by_cases hc : s.workspace_root ≠ "" ∧ s.conversation_id ≠ ""
          · simp [hc, statusInv] at hinv ⊢
            exact hinv
          · simp [hc, statusInv] at hinv ⊢
            exact hinv
  · intro config text s hinv
    rcases loopContinuationStep_trichotomy config text s with heq | ⟨_, heq⟩ | ⟨_, heq⟩ <;>
      · rw [heq]
        simp [statusInv] at hinv ⊢
        exact hinv
  · intro fc session_id msg now sessions fc2 b sessions2 hread hall hadd hread2
    unfold SessionStore.add_message at hadd
    rw [hread] at hadd
    simp only [pyBind_ok] at hadd
    cases hget : pyDictGet sessions session_id with
    | none =>
        rw [hget] at hadd
        simp only [Except.ok.injEq, Prod.mk.injEq] at hadd
        rw [← hadd.1] at hread2
        rw [hread] at hread2
        simp only [Except.ok.injEq] at hread2
        subst hread2
        exact hall
    | some session =>
        rw [hget] at hadd
        simp only [Except.ok.injEq, Prod.mk.injEq] at hadd
        rw [← hadd.1, read_write_sessions] at hread2
        simp only [Except.ok.injEq] at hread2
        subst hread2
        intro p hp
        rcases mem_assocUpdate _ _ _ p hp with hpe | hpm
        · subst hpe
          have hsmem := pyDictGet_mem sessions session_id session hget
          have := hall _ hsmem
          simpa [statusInv] using this
        · exact hall _ hpm

/-- Witness for `status_projection_inv`: processing `session_start` on the
plain idle session keeps the status equal to the projection of the state. -/
theorem status_projection_inv_witness :
    statusInv samplePlainIdle ∧
    statusInv (process_event _default_transitions samplePlainIdle "session_start").1 :=
  ⟨by decide,
   status_projection_inv.2.1 _default_transitions samplePlainIdle "session_start"
     (by decide)⟩
